import Mathlib

/-!
Shallow embedding of src/start.js of the wifi-tracing server: the startup
sequencer, the middleware pipeline, the graceful-shutdown wrapper and the
process-wide fault handlers, together with theorems settling the observable
contracts of the module.
-/

/-- States of the live listening socket (the data model calls it ServiceHandle). -/
inductive HandleState
  | Starting
  | Listening
  | Closing
  | Closed
deriving DecidableEq, BEq

/-- The value the startup promise resolves with: the express server once bound. -/
structure ServiceHandle where
  state : HandleState
deriving DecidableEq, BEq

/-- Outcome of a JS promise as observable by an awaiting caller. -/
inductive PromiseState (α : Type)
  | pending
  | resolved (value : α)
  | rejected (err : String)
deriving DecidableEq, BEq

/-- Events of the socket-bind attempt: app.listen either fires its success
callback or emits an error event, for which no listener is attached. -/
inductive StartEvent
  | listenSucceeded
  | listenErrored
deriving DecidableEq, BEq

/-- The promise returned by startServer: resolve(server) is called only inside
the app.listen success callback, and no reject call occurs anywhere in the
executor, so the promise resolves with a Listening handle on bind success and
stays pending on every other sequence of events. -/
def promiseAfter : List StartEvent → PromiseState ServiceHandle
  | [] => .pending
  | .listenSucceeded :: _ => .resolved { state := .Listening }
  | .listenErrored :: rest => promiseAfter rest

/-- States of the mongoose connection (the data model calls it StorageConnection). -/
inductive StorageState
  | Connecting
  | Open
  | Failed
deriving DecidableEq, BEq

/-- The Promise built at the end of startServer references only app.listen; the
storage connection does not occur in the executor, so the promise outcome is a
function of the bind events alone. -/
def startPromise (_storage : StorageState) (events : List StartEvent) :
    PromiseState ServiceHandle :=
  promiseAfter events

/-- Side effects performed by the handlers in start.js. -/
inductive ProcAction
  | logInfo (msg : String)
  | logError (msg : String)
  | logWarn (msg : String)
  | consoleLog (msg : String)
  | fetchPatch (url : String)
  | exitProcess (code : Nat)
deriving DecidableEq, BEq

/-- True for actions that only write to a log. -/
def ProcAction.isLogAction : ProcAction → Bool
  | .logInfo _ => true
  | .logError _ => true
  | .logWarn _ => true
  | .consoleLog _ => true
  | .fetchPatch _ => false
  | .exitProcess _ => false

/-- True for outbound HTTP PATCH requests issued via fetch. -/
def ProcAction.isFetchAction : ProcAction → Bool
  | .fetchPatch _ => true
  | _ => false

/-- True for actions that terminate the process. -/
def ProcAction.isExitAction : ProcAction → Bool
  | .exitProcess _ => true
  | _ => false

/-- JS template-literal interpolation of an environment variable: an unset
variable renders as the literal text undefined. -/
def jsInterp : Option String → String
  | some s => s
  | none => "undefined"

/-- JS disjunction on an environment string: unset and the empty string are falsy. -/
def jsOr : Option String → String → String
  | some s, d => if s = "" then d else s
  | none, d => d

/-- Port resolution of startServer: explicit argument, else the PORT variable,
else 5000. -/
def resolvePortString : Option Nat → Option String → String
  | some p, _ => toString p
  | none, env => jsOr env "5000"

/-- API base path resolution at the route mount: the API_PREFIX variable when
truthy, else the default /api/v1/. -/
def resolveApiBase (env : Option String) : String :=
  jsOr env "/api/v1/"

/-- URL of the first warm-up request, exactly as interpolated in the db open
handler: the raw PORT and API_PREFIX environment values. -/
def warmupFeatureUrl (envPort envApiBase : Option String) : String :=
  "http://localhost:" ++ jsInterp envPort ++ jsInterp envApiBase ++
    "wifis/patch/reloadFeatureCache"

/-- URL of the second warm-up request, interpolated the same way. -/
def warmupHeatmapUrl (envPort envApiBase : Option String) : String :=
  "http://localhost:" ++ jsInterp envPort ++ jsInterp envApiBase ++
    "wifis/patch/reloadHeatmapData"

/-- Follows the words of the spec, for refinement comparison only: the warm-up
URL built from the resolved listen port and the resolved API base. -/
def specWarmupFeatureUrl (portArg : Option Nat) (envPort envApiBase : Option String) :
    String :=
  "http://localhost:" ++ resolvePortString portArg envPort ++
    resolveApiBase envApiBase ++ "wifis/patch/reloadFeatureCache"

/-- Follows the words of the spec, for refinement comparison only: the second
warm-up URL built from the resolved listen port and the resolved API base. -/
def specWarmupHeatmapUrl (portArg : Option Nat) (envPort envApiBase : Option String) :
    String :=
  "http://localhost:" ++ resolvePortString portArg envPort ++
    resolveApiBase envApiBase ++ "wifis/patch/reloadHeatmapData"

/-- Event names with a registered handler on the mongoose connection: start.js
registers a handler for the open event and nothing else. -/
def dbEventHandlers : List String := ["open"]

/-- Body of the handler for the open event of the db connection. -/
def dbOpenHandler (cacheOnStartup envPort envApiBase : Option String) :
    List ProcAction :=
  .logInfo "Connected database" ::
    (if cacheOnStartup = some "true" then
      [ .logInfo "Loading feature and heat-map cache.",
        .fetchPatch (warmupFeatureUrl envPort envApiBase),
        .fetchPatch (warmupHeatmapUrl envPort envApiBase) ]
    else [])

/-- Error callback passed to each warm-up fetch: log the error when present. -/
def warmupErrorCallback : Option String → List ProcAction
  | some e => [.consoleLog e]
  | none => []

/-- Actions the module performs when the storage connection reaches a state:
only the Open state has a handler; no handler is registered for failure. -/
def dbNotifications (s : StorageState) (cacheOnStartup envPort envApiBase : Option String) :
    List ProcAction :=
  match s with
  | .Open => dbOpenHandler cacheOnStartup envPort envApiBase
  | _ => []

/-- Process events with a registered handler at module load. -/
def processRegistrations : List String := ["uncaughtException", "exit"]

/-- Body of the handler for uncaught exceptions. -/
def uncaughtExceptionHandler (origin err trace : String) : List ProcAction :=
  [ .logError ("Uncaught Exception: origin:" ++ origin ++ ", error: " ++ err ++
      ", trace: " ++ trace),
    .logWarn "Server may be unstable after an uncaught exception. Please restart server" ]

/-- Body of the handler for the process exit event. -/
def exitEventHandler (code : Nat) : List ProcAction :=
  [ .logInfo ("Exiting with code " ++ toString code ++ "..."),
    .consoleLog "\nPress Ctrl+C if using nodemon." ]

/-- The cross-cutting stages registered inside startServer. -/
inductive StageTag
  | swaggerDocs
  | rateLimiter
  | helmet
  | cors
  | aliveRoute
  | expressLogger
  | compressionStage
  | jsonBody
  | urlencodedBody
  | routeMount
  | catchAll
  | errorReporter
deriving DecidableEq, BEq

/-- Registration order in startServer: swagger docs first outside production,
then the middleware chain, the route mount, the catch-all, and — last — the
generic error middleware. The etag disable call is a setting, not a stage. -/
def registrationOrder (production : Bool) : List StageTag :=
  (if production then [] else [.swaggerDocs]) ++
    [ .rateLimiter, .helmet, .cors, .aliveRoute, .expressLogger, .compressionStage,
      .jsonBody, .urlencodedBody, .routeMount, .catchAll, .errorReporter ]

/-- An inbound HTTP request, as far as the pipeline inspects it. -/
structure Request where
  method : String
  path : String
  headers : List (String × String)
  bodyBytes : Nat
deriving DecidableEq, BEq

/-- Value of a request header, when present. -/
def headerValue (req : Request) (name : String) : Option String :=
  (req.headers.find? (fun h => h.1 == name)).map (fun h => h.2)

/-- JS truthiness of a header value: present and non-empty. -/
def jsTruthyHeader (req : Request) (name : String) : Bool :=
  match headerValue req name with
  | some v => v != ""
  | none => false

/-- The filter option given to the compression middleware: requests carrying a
truthy x-no-compression header are excluded before the library predicate is
consulted. -/
def compressionFilter (req : Request) (genericPredicate : Bool) : Bool :=
  if jsTruthyHeader req "x-no-compression" then false
  else genericPredicate

/-- The same filter, additionally reporting whether the generic library
predicate was evaluated: in the source it is invoked only on the else branch. -/
def compressionFilterTrace (req : Request) (genericPredicate : Bool) : Bool × Bool :=
  if jsTruthyHeader req "x-no-compression" then (false, false)
  else (genericPredicate, true)

/-- Result of a route handler in the externally supplied route table. -/
inductive RouteOutcome
  | reply (status : Nat) (body : String)
  | raise (err : String)
deriving DecidableEq, BEq

/-- The externally supplied route table, abstracted as a function of the
method, the path below the API base, and the storage availability the handler
observes. -/
def RouteTable : Type :=
  String → String → Bool → Option RouteOutcome

/-- What a request produced: status, body, and the stages it traversed. -/
structure DispatchResult where
  status : Nat
  body : String
  visited : List StageTag
deriving DecidableEq, BEq

/-- Modelled from the spec: genericErrorMiddleware lives in ./errorMiddlewares,
which is not among the sources; the spec says a propagated error is caught at
the terminal stage and converted into a uniform error response, modelled here
as a fixed 500 reply. -/
def genericErrorResponse : Nat × String := (500, "Internal Server Error")

/-- The byte limit both body decoders are configured with (100mb). -/
def bodyLimitBytes : Nat := 104857600

/-- First list is an initial segment of the second, character by character. -/
def charsUnder : List Char → List Char → Bool
  | [], _ => true
  | _ :: _, [] => false
  | b :: bs, p :: ps => b == p && charsUnder bs ps

/-- Path matching of an express mount: the request path begins with the base. -/
def pathUnder (path base : String) : Bool :=
  charsUnder base.data path.data

/-- One request through the registered chain, mirroring registration order:
the rate limiter (1000 ms window, max 5), helmet and cors (header-only, pass
through), the alive route, the access logger (pass through), compression
(encoding only, see compressionFilter), the body decoders with their size
limit, the route mount under the API base, the catch-all, and the error
middleware, reached only via a propagated error. nthInWindow is the position
of the request among those of its originating identity in the current window. -/
def handleRequest (routes : RouteTable) (storageOpen : Bool) (apiBase : String)
    (nthInWindow : Nat) (req : Request) : DispatchResult :=
  if 5 < nthInWindow then
    { status := 429, body := "Too many requests, please try again later.",
      visited := [.rateLimiter] }
  else if req.method = "GET" ∧ req.path = "/alive" then
    { status := 200, body := "OK",
      visited := [.rateLimiter, .helmet, .cors, .aliveRoute] }
  else if bodyLimitBytes < req.bodyBytes then
    { status := 413, body := "request entity too large",
      visited := [.rateLimiter, .helmet, .cors, .expressLogger, .compressionStage,
        .jsonBody] }
  else if pathUnder req.path apiBase then
    match routes req.method (req.path.drop apiBase.length) storageOpen with
    | some (.reply s b) =>
      { status := s, body := b,
        visited := [.rateLimiter, .helmet, .cors, .expressLogger, .compressionStage,
          .jsonBody, .urlencodedBody, .routeMount] }
    | some (.raise _) =>
      { status := genericErrorResponse.1, body := genericErrorResponse.2,
        visited := [.rateLimiter, .helmet, .cors, .expressLogger, .compressionStage,
          .jsonBody, .urlencodedBody, .routeMount, .errorReporter] }
    | none =>
      { status := 404, body := "404 - Not Found",
        visited := [.rateLimiter, .helmet, .cors, .expressLogger, .compressionStage,
          .jsonBody, .urlencodedBody, .routeMount, .catchAll] }
  else
    { status := 404, body := "404 - Not Found",
      visited := [.rateLimiter, .helmet, .cors, .expressLogger, .compressionStage,
        .jsonBody, .urlencodedBody, .catchAll] }

/-- The state of the underlying Node server, as far as close is concerned. -/
structure NodeServer where
  listening : Bool
deriving DecidableEq, BEq

/-- What the close callback receives: nothing on a successful close, performed
after waiting for the in-flight connections to finish, or an error when the
server was not running. -/
inductive CloseResult
  | completedNoArg
  | errNotRunning
deriving DecidableEq, BEq

/-- Node close on the server (the bound original kept before the wrapper
replaces it): stops accepting, drains, then fires the callback with no
argument; when the server is not listening it fires the callback with an
error. -/
def originalClose (s : NodeServer) : NodeServer × CloseResult :=
  if s.listening then ({ listening := false }, .completedNoArg)
  else (s, .errNotRunning)

/-- Server after the wrapper is installed in the listen callback, counting how
many times the wrapper has invoked the underlying close. -/
structure WrappedServer where
  node : NodeServer
  closeInitiations : Nat
deriving DecidableEq, BEq

/-- The replacement close installed in the listen callback: every call builds a
new Promise whose executor invokes the kept original close with the resolver
as callback, so each call runs the underlying close once more and the promise
resolves with whatever value the close callback received. -/
def wrappedClose (s : WrappedServer) : WrappedServer × PromiseState CloseResult :=
  let r := originalClose s.node
  ({ node := r.1, closeInitiations := s.closeInitiations + 1 }, .resolved r.2)

/-- C1: for every invocation of startServer, the returned promise resolves only
after the listening socket binds successfully, and it resolves with the server
handle in the Listening state; when the bind fails the promise is never
rejected and, absent a successful bind, it stays pending forever. -/
theorem startServer_promise_resolution (events : List StartEvent) :
    (∀ h, promiseAfter events = .resolved h →
      h.state = .Listening ∧ StartEvent.listenSucceeded ∈ events) ∧
    (∀ e, promiseAfter events ≠ .rejected e) ∧
    ((∀ ev ∈ events, ev = .listenErrored) → promiseAfter events = .pending) := by
  induction events with
  | nil =>
    refine ⟨fun h hr => ?_, fun e hr => ?_, fun _ => rfl⟩
    · exact absurd hr (by simp [promiseAfter])
    · exact absurd hr (by simp [promiseAfter])
  | cons a rest ih =>
    cases a with
    | listenSucceeded =>
      refine ⟨fun h hr => ?_, fun e hr => ?_, fun hall => ?_⟩
      · have hh : h = { state := HandleState.Listening } := by
          simpa [promiseAfter] using hr.symm
        subst hh
        exact ⟨rfl, List.mem_cons_self _ _⟩
      · exact absurd hr (by simp [promiseAfter])
      · exact absurd (hall _ (List.mem_cons_self _ _)) (by simp)
    | listenErrored =>
      refine ⟨fun h hr => ?_, fun e hr => ?_, fun hall => ?_⟩
      · have hr2 : promiseAfter rest = .resolved h := by simpa [promiseAfter] using hr
        exact ⟨(ih.1 h hr2).1, List.mem_cons_of_mem _ (ih.1 h hr2).2⟩
      · exact ih.2.1 e (by simpa [promiseAfter] using hr)
      · have : promiseAfter rest = .pending :=
          ih.2.2 (fun ev hv => hall ev (List.mem_cons_of_mem _ hv))
        simpa [promiseAfter] using this

/-- C1 witness: with only a failed bind event the startup promise stays pending. -/
theorem startServer_promise_resolution_witness :
    promiseAfter [.listenErrored] = .pending :=
  (startServer_promise_resolution [.listenErrored]).2.2
    (fun ev hv => by simpa using hv)

/-- C2 counterexample: starting from a listening server, a second call of the
wrapped close reinitiates the underlying close — two wrapper calls perform two
underlying close invocations — and the second call observes a different
outcome than the first. -/
theorem close_second_call_reinitiates :
    (wrappedClose (wrappedClose ⟨⟨true⟩, 0⟩).1).1.closeInitiations = 2 ∧
    (wrappedClose ⟨⟨true⟩, 0⟩).2 ≠ (wrappedClose (wrappedClose ⟨⟨true⟩, 0⟩).1).2 := by
  decide

/-- C2 amended: every call of the wrapped close invokes the underlying close
once more and yields a promise that resolves — never rejects — with the value
given to the close callback; on a listening server that value is the
no-argument success, delivered after in-flight connections finish. -/
theorem close_wrapper_behavior (s : WrappedServer) :
    (wrappedClose s).1.closeInitiations = s.closeInitiations + 1 ∧
    (wrappedClose s).2 = .resolved (originalClose s.node).2 ∧
    (s.node.listening = true → (wrappedClose s).2 = .resolved .completedNoArg) := by
  refine ⟨rfl, rfl, fun h => ?_⟩
  simp [wrappedClose, originalClose, h]

/-- C2 amended witness: the first close of a listening server resolves with the
no-argument success. -/
theorem close_wrapper_behavior_witness :
    (wrappedClose ⟨⟨true⟩, 5⟩).2 = .resolved .completedNoArg :=
  (close_wrapper_behavior ⟨⟨true⟩, 5⟩).2.2 rfl

/-- C3: when the storage connection fails while the bind succeeds, the startup
promise still resolves with a Listening handle and a GET request to /alive
still gets 200 with body OK; the module registers no handler that could end
startup on storage failure, and the registered uncaught-exception handler —
through which such a failure may surface — only logs and never exits. -/
theorem storage_failure_nonfatal (routes : RouteTable) (apiBase : String)
    (nth : Nat) (hdrs : List (String × String)) (bytes : Nat)
    (cacheFlag envPort envApiBase : Option String) (e t : String)
    (hnth : nth ≤ 5) :
    startPromise .Failed [.listenSucceeded] = .resolved { state := .Listening } ∧
    handleRequest routes false apiBase nth
      { method := "GET", path := "/alive", headers := hdrs, bodyBytes := bytes } =
      { status := 200, body := "OK",
        visited := [.rateLimiter, .helmet, .cors, .aliveRoute] } ∧
    dbNotifications .Failed cacheFlag envPort envApiBase = [] ∧
    (uncaughtExceptionHandler "unhandledRejection" e t).all ProcAction.isLogAction = true := by
  refine ⟨rfl, ?_, rfl, rfl⟩
  unfold handleRequest
  rw [if_neg (Nat.not_lt.mpr hnth), if_pos ⟨rfl, rfl⟩]

/-- C3 witness: with an empty route table, storage down and a first request in
the window, /alive answers 200 OK. -/
theorem storage_failure_nonfatal_witness :
    handleRequest (fun _ _ _ => none) false "/api/v1/" 1
      { method := "GET", path := "/alive", headers := [], bodyBytes := 0 } =
      { status := 200, body := "OK",
        visited := [.rateLimiter, .helmet, .cors, .aliveRoute] } :=
  (storage_failure_nonfatal (fun _ _ _ => none) "/api/v1/" 1 [] 0
    none none none "" "" (by decide)).2.1

/-- C4: when the storage connection reaches Open and CACHE_ON_STARTUP is the
string true, the open handler issues exactly the two warm-up PATCH requests,
the feature cache one and then the heat-map one; the error callback of each
fetch only logs, so a warm-up failure never escalates; with the flag unset no
warm-up request is issued; and the open event is the only db event handled. -/
theorem cache_warmup_exactly_two (envPort envApiBase : Option String)
    (err : Option String) :
    (dbNotifications .Open (some "true") envPort envApiBase).filter
        ProcAction.isFetchAction =
      [ .fetchPatch (warmupFeatureUrl envPort envApiBase),
        .fetchPatch (warmupHeatmapUrl envPort envApiBase) ] ∧
    (dbNotifications .Open none envPort envApiBase).filter
        ProcAction.isFetchAction = [] ∧
    (warmupErrorCallback err).all ProcAction.isLogAction = true ∧
    dbEventHandlers = ["open"] := by
  refine ⟨?_, ?_, ?_, rfl⟩
  · simp [dbNotifications, dbOpenHandler, ProcAction.isFetchAction, List.filter]
  · simp [dbNotifications, dbOpenHandler, ProcAction.isFetchAction, List.filter]
  · cases err <;> rfl

/-- C5 counterexample: with PORT and API_PREFIX unset the code interpolates the
literal text undefined into the warm-up URL, so the issued URL differs from
the one built from the resolved port (5000) and the resolved API base. -/
theorem warmup_url_not_resolved_counterexample :
    warmupFeatureUrl none none ≠ specWarmupFeatureUrl none none none ∧
    warmupFeatureUrl none none =
      "http://localhost:undefinedundefinedwifis/patch/reloadFeatureCache" := by
  refine ⟨by decide, rfl⟩

/-- C5 amended: the warm-up URLs are built from the raw PORT and API_PREFIX
environment values, not from the resolved listen port and API base; the two
forms agree exactly in configurations where those coincide, in particular when
no explicit port argument is given and both variables are set and non-empty. -/
theorem warmup_url_matches_when_env_set (p a : String) (hp : p ≠ "") (ha : a ≠ "") :
    warmupFeatureUrl (some p) (some a) = specWarmupFeatureUrl none (some p) (some a) ∧
    warmupHeatmapUrl (some p) (some a) = specWarmupHeatmapUrl none (some p) (some a) := by
  constructor <;>
    simp [warmupFeatureUrl, warmupHeatmapUrl, specWarmupFeatureUrl,
      specWarmupHeatmapUrl, jsInterp, resolvePortString, resolveApiBase, jsOr, hp, ha]

/-- C5 amended witness: with PORT 5000 and API_PREFIX /api/v1/ set, the issued
feature-cache URL equals the resolved form. -/
theorem warmup_url_matches_when_env_set_witness :
    warmupFeatureUrl (some "5000") (some "/api/v1/") =
      specWarmupFeatureUrl none (some "5000") (some "/api/v1/") :=
  (warmup_url_matches_when_env_set "5000" "/api/v1/" (by decide) (by decide)).1

/-- C6: the generic error middleware is the terminal registration — last in
the order, occurring once, after the route mount and the catch-all — and an
error raised by a mounted route handler is caught exactly once there and
answered with the uniform error response. -/
theorem error_reporter_terminal (production : Bool) (routes : RouteTable)
    (storageOpen : Bool) (apiBase : String) (nth : Nat) (req : Request) (err : String)
    (hnth : nth ≤ 5) (halive : ¬(req.method = "GET" ∧ req.path = "/alive"))
    (hbody : req.bodyBytes ≤ bodyLimitBytes)
    (hmount : pathUnder req.path apiBase = true)
    (hroute : routes req.method (req.path.drop apiBase.length) storageOpen =
      some (.raise err)) :
    (registrationOrder production).getLast? = some .errorReporter ∧
    (registrationOrder production).count .errorReporter = 1 ∧
    handleRequest routes storageOpen apiBase nth req =
      { status := genericErrorResponse.1, body := genericErrorResponse.2,
        visited := [.rateLimiter, .helmet, .cors, .expressLogger, .compressionStage,
          .jsonBody, .urlencodedBody, .routeMount, .errorReporter] } ∧
    (handleRequest routes storageOpen apiBase nth req).visited.count .errorReporter
      = 1 := by
  have h3 : handleRequest routes storageOpen apiBase nth req =
      { status := genericErrorResponse.1, body := genericErrorResponse.2,
        visited := [.rateLimiter, .helmet, .cors, .expressLogger, .compressionStage,
          .jsonBody, .urlencodedBody, .routeMount, .errorReporter] } := by
    unfold handleRequest
    rw [if_neg (Nat.not_lt.mpr hnth), if_neg halive, if_neg (Nat.not_lt.mpr hbody),
      if_pos hmount, hroute]
  refine ⟨?_, ?_, h3, ?_⟩
  · cases production <;> decide
  · cases production <;> decide
  · rw [h3]
    decide

/-- C6 witness: a route handler that raises is answered by the terminal error
middleware with the uniform error response. -/
theorem error_reporter_terminal_witness :
    handleRequest (fun _ _ _ => some (.raise "boom")) true "/api/v1/" 1
      { method := "GET", path := "/api/v1/wifis", headers := [], bodyBytes := 0 } =
      { status := genericErrorResponse.1, body := genericErrorResponse.2,
        visited := [.rateLimiter, .helmet, .cors, .expressLogger, .compressionStage,
          .jsonBody, .urlencodedBody, .routeMount, .errorReporter] } :=
  (error_reporter_terminal true (fun _ _ _ => some (.raise "boom")) true "/api/v1/" 1
    { method := "GET", path := "/api/v1/wifis", headers := [], bodyBytes := 0 } "boom"
    (by decide) (by decide) (by decide) (by decide) rfl).2.2.1

/-- C7: a request carrying a truthy x-no-compression header never gets a
compressed body, whatever the generic predicate would say, and the generic
predicate is not consulted at all: the opt-out check runs first. -/
theorem no_compression_on_optout (req : Request) (genericPredicate : Bool)
    (h : jsTruthyHeader req "x-no-compression" = true) :
    compressionFilter req genericPredicate = false ∧
    compressionFilterTrace req genericPredicate = (false, false) := by
  constructor <;> simp [compressionFilter, compressionFilterTrace, h]

/-- C7 witness: a large request with the opt-out header set is not compressed
even though the generic predicate answers true. -/
theorem no_compression_on_optout_witness :
    compressionFilter
      { method := "GET", path := "/api/v1/wifis",
        headers := [("x-no-compression", "1")], bodyBytes := 2000000 } true = false :=
  (no_compression_on_optout
    { method := "GET", path := "/api/v1/wifis",
      headers := [("x-no-compression", "1")], bodyBytes := 2000000 } true (by decide)).1

/-- C8 counterexample: the sixth GET request to /alive of one identity inside a
single 1000 ms window is answered by the rate limiter with 429, not 200. -/
theorem alive_sixth_request_counterexample :
    (handleRequest (fun _ _ _ => none) true "/api/v1/" 6
      { method := "GET", path := "/alive", headers := [], bodyBytes := 0 }).status
      = 429 ∧
    (handleRequest (fun _ _ _ => none) true "/api/v1/" 6
      { method := "GET", path := "/alive", headers := [], bodyBytes := 0 }).status
      ≠ 200 := by
  refine ⟨rfl, by decide⟩

/-- C8 amended: every GET request to /alive admitted by the rate limiter (at
most five per identity per window) returns 200 with the literal body OK,
independent of the storage state and of the registered routes, and traverses
only the limiter, helmet and cors before the alive route — no later stage. -/
theorem alive_ok_within_limit (routes : RouteTable) (storageOpen : Bool)
    (apiBase : String) (nth : Nat) (hdrs : List (String × String)) (bytes : Nat)
    (hnth : nth ≤ 5) :
    handleRequest routes storageOpen apiBase nth
      { method := "GET", path := "/alive", headers := hdrs, bodyBytes := bytes } =
      { status := 200, body := "OK",
        visited := [.rateLimiter, .helmet, .cors, .aliveRoute] } := by
  unfold handleRequest
  rw [if_neg (Nat.not_lt.mpr hnth), if_pos ⟨rfl, rfl⟩]

/-- C8 amended witness: the fifth /alive request of the window, with storage
closed and an arbitrary header, is answered 200 OK. -/
theorem alive_ok_within_limit_witness :
    handleRequest (fun _ _ _ => some (.reply 204 "")) false "/x/" 5
      { method := "GET", path := "/alive", headers := [("a", "b")], bodyBytes := 7 } =
      { status := 200, body := "OK",
        visited := [.rateLimiter, .helmet, .cors, .aliveRoute] } :=
  alive_ok_within_limit (fun _ _ _ => some (.reply 204 "")) false "/x/" 5
    [("a", "b")] 7 (by decide)

/-- C9: exactly one process-wide handler for uncaught exceptions is registered;
on trigger it logs one error line carrying the origin, the error and the stack
trace, then one warning that the process may be unstable and should be
restarted, and it performs no process-terminating action. -/
theorem uncaught_handler_logs_and_survives (origin err trace : String) :
    processRegistrations.count "uncaughtException" = 1 ∧
    uncaughtExceptionHandler origin err trace =
      [ .logError ("Uncaught Exception: origin:" ++ origin ++ ", error: " ++ err ++
          ", trace: " ++ trace),
        .logWarn "Server may be unstable after an uncaught exception. Please restart server" ] ∧
    (uncaughtExceptionHandler origin err trace).all
      (fun a => !a.isExitAction) = true := by
  exact ⟨by decide, rfl, rfl⟩

/-- C10: the rate limiter is registered before the alive route, the route mount
and the catch-all in both environments, and the sixth request of an identity
within one 1000 ms window — here a GET to /alive — is rejected with 429 by the
limiter alone, its handler never being reached. -/
theorem rate_limiter_guards_all_routes (production : Bool) (routes : RouteTable)
    (storageOpen : Bool) (apiBase : String) (hdrs : List (String × String))
    (bytes : Nat) :
    (registrationOrder production).indexOf .rateLimiter <
        (registrationOrder production).indexOf .aliveRoute ∧
    (registrationOrder production).indexOf .rateLimiter <
        (registrationOrder production).indexOf .routeMount ∧
    (registrationOrder production).indexOf .rateLimiter <
        (registrationOrder production).indexOf .catchAll ∧
    handleRequest routes storageOpen apiBase 6
      { method := "GET", path := "/alive", headers := hdrs, bodyBytes := bytes } =
      { status := 429, body := "Too many requests, please try again later.",
        visited := [.rateLimiter] } := by
  refine ⟨?_, ?_, ?_, rfl⟩ <;> cases production <;> decide
